import Mathlib

/-!
Shallow embedding of the AI scheduling agent's core logic
(patient lookup, slot scheduling/booking, session state machine,
pipeline orchestrator, notification stubs), with theorems checking
the natural-language specification against this embedding.

Tabular data (the CSV roster, the Excel schedule) is modelled as a
list of rows, each row an association list from column names to
string values; the positional index of a row in the list plays the
role of the pandas RangeIndex.
-/

namespace SchedAgent

/-- A row of a tabular file: column name to string cell value. -/
abbrev Row := List (String × String)

/-- A table: the declared columns and the rows, indexed positionally. -/
structure Table where
  cols : List String
  rows : List Row
deriving Repr, DecidableEq

/-- Cell access `row[col]`; a missing column reads as the empty string
(pandas cells were read with `dtype=str` and `fillna("")`). -/
def rowGet (row : Row) (c : String) : String :=
  ((row.find? (fun p => p.1 == c)).map Prod.snd).getD ""

/-- `row.get(col)` with no default: `none` when the label is absent. -/
def rowGetOpt (row : Row) (c : String) : Option String :=
  (row.find? (fun p => p.1 == c)).map Prod.snd

/-- Python `str.strip()`: drop whitespace from both ends (implemented
over the character list so it evaluates by kernel reduction). -/
def pyStrip (s : String) : String :=
  ⟨((s.data.dropWhile Char.isWhitespace).reverse.dropWhile Char.isWhitespace).reverse⟩

/-- Python `str.lower()` (ASCII view). -/
def pyLower (s : String) : String := ⟨s.data.map Char.toLower⟩

/-- Python `str.split(sep)` for a one-character separator, on character
lists: never collapses empty fields, and splitting the empty string
yields one empty field. -/
def splitCharList (sep : Char) : List Char → List (List Char)
  | [] => [[]]
  | c :: rest =>
    match splitCharList sep rest with
    | [] => [[c]]
    | h :: t => if c = sep then [] :: h :: t else (c :: h) :: t

/-- Python `str.split(sep)` for a one-character separator. -/
def splitChar (sep : Char) (s : String) : List String :=
  (splitCharList sep s.data).map (fun l => ⟨l⟩)

/-- Python's `", ".join(parts)`. -/
def joinComma : List String → String
  | [] => ""
  | [x] => x
  | x :: xs => x ++ ", " ++ joinComma xs

/-! ## Patient lookup (`utils/patient_lookup.py`, `find_patient`) -/

/-- The row mask of `find_patient`: name compared after strip+lower,
DOB compared after strip only. -/
def matchesPatient (name dob : String) (row : Row) : Bool :=
  pyLower (pyStrip (rowGet row "Name")) == pyLower (pyStrip name) &&
  pyStrip (rowGet row "DOB") == pyStrip dob

/-- The columns surfaced in a lookup summary with their display labels,
in the order `find_patient` adds them. -/
def summaryFields : List (String × String) :=
  [("Name", "Name"), ("DOB", "DOB"), ("InsuranceCarrier", "Insurance"),
   ("MemberID", "Member ID"), ("GroupNumber", "Group"), ("Status", "Status")]

/-- `add_if_present` applied over `summaryFields`, then joined with ", ":
a field contributes `"Label: value"` when its column exists and its
stripped value is non-empty. -/
def buildSummary (cols : List String) (row : Row) : String :=
  joinComma (summaryFields.filterMap (fun cl =>
    if cols.contains cl.1 && pyStrip (rowGet row cl.1) != "" then
      some (cl.2 ++ ": " ++ pyStrip (rowGet row cl.1))
    else none))

/-- `PatientLookup.find_patient`: requires `Name` and `DOB` columns,
returns the summary of the first row matching the mask, else `none`. -/
def find_patient (t : Table) (name dob : String) : Option String :=
  if t.cols.contains "Name" && t.cols.contains "DOB" then
    match t.rows.find? (matchesPatient name dob) with
    | some row => some (buildSummary t.cols row)
    | none => none
  else none

/-! ## Scheduler (`utils/scheduler.py`) -/

/-- Dict-style update of a row: replace the first binding of `c`, or
append `(c, v)` at the end when absent (insertion-order semantics of a
Python dict / pandas row label assignment). -/
def rowSet : Row → String → String → Row
  | [], c, v => [(c, v)]
  | p :: rest, c, v => if p.1 == c then (c, v) :: rest else p :: rowSet rest c v

/-- The availability mask of `get_available_slots`: a `Status` column is
compared (strip+lower) against `"available"`; otherwise an `Available`
column is tested against a synonym list; with neither column every row
passes. -/
def availMask (cols : List String) (row : Row) : Bool :=
  if cols.contains "Status" then
    pyLower (pyStrip (rowGet row "Status")) == "available"
  else if cols.contains "Available" then
    ["yes", "true", "1", "available"].contains (pyLower (pyStrip (rowGet row "Available")))
  else true

/-- Column-name synonyms for the doctor filter, in priority order. -/
def doctorCols : List String :=
  ["DoctorName", "Doctor", "Provider", "Physician", "Doctor Name"]

/-- Column-name synonyms for the location filter, in priority order. -/
def locationCols : List String := ["Location", "Clinic", "Branch", "Site", "Office"]

/-- `find_col`: first candidate present among the columns. -/
def find_col (cols : List String) (candidates : List String) : Option String :=
  candidates.find? (fun c => cols.contains c)

/-- Case/whitespace-insensitive equality filter on one column, over
index-carrying rows. -/
def eqFilter (col v : String) (rows : List (Nat × Row)) : List (Nat × Row) :=
  rows.filter (fun p => pyLower (pyStrip (rowGet p.2 col)) == pyLower (pyStrip v))

/-- The optional doctor/location filter: Python's `if doctor:` is falsy on
`None` and on the empty string, and the filter is skipped when no synonym
column is found. -/
def applyOptFilter (cols candidates : List String) (v : Option String)
    (rows : List (Nat × Row)) : List (Nat × Row) :=
  match v with
  | none => rows
  | some s =>
    if s = "" then rows
    else
      match find_col cols candidates with
      | none => rows
      | some c => eqFilter c s rows

/-- `Scheduler.get_available_slots`, keeping each row's pandas index
(positional). Filters availability, then doctor, then location, then
takes `head(limit)`. -/
def get_available_slots_idx (t : Table) (limit : Nat)
    (doctor location : Option String) : List (Nat × Row) :=
  (applyOptFilter t.cols locationCols location
    (applyOptFilter t.cols doctorCols doctor
      (t.rows.enum.filter (fun p => availMask t.cols p.2)))).take limit

/-- `Scheduler.get_available_slots` as the plain sequence of rows. -/
def get_available_slots (t : Table) (limit : Nat)
    (doctor location : Option String) : List Row :=
  (get_available_slots_idx t limit doctor location).map Prod.snd

/-- The row update performed by a booking: `Status` set to `"Booked"`
when that column exists, else `Available` set to `"No"`, else no change.
(The string-valued table models the non-bool `Available` dtype.) -/
def bookRow (cols : List String) (row : Row) : Row :=
  if cols.contains "Status" then rowSet row "Status" "Booked"
  else if cols.contains "Available" then rowSet row "Available" "No"
  else row

/-- `Scheduler.book_slot_by_row_index`: `None` when the index is not in
the table, else the updated row snapshot together with the persisted
table (persistence is modelled by returning the new table). -/
def book_slot_by_row_index (t : Table) (i : Nat) : Option Row × Table :=
  if h : i < t.rows.length then
    let newRow := bookRow t.cols (t.rows.get ⟨i, h⟩)
    (some newRow, ⟨t.cols, t.rows.set i newRow⟩)
  else (none, t)

/-- `Scheduler.book_slot` (backwards-compat shim): positions into the
current availability listing (limit 5), then books by that row's index. -/
def book_slot (t : Table) (slot_index : Nat) : Option Row × Table :=
  match (get_available_slots_idx t 5 none none).get? slot_index with
  | none => (none, t)
  | some p => book_slot_by_row_index t p.1

/-! ## Notification stubs (`utils/sms_sender.py`, `utils/email_sender.py`,
`utils/reminder_system.py`)

Log files are modelled as lists of lines; the wall-clock timestamp taken
inside the Python functions is passed in as the `now` argument. -/

/-- The line `SMSSender.send_sms` appends to its log. -/
def smsLogLine (now phone message : String) : String :=
  now ++ " -> " ++ phone ++ ": " ++ message

/-- `SMSSender.send_sms`: status string and updated log. -/
def send_sms (now : String) (log : List String) (phone message : String) :
    String × List String :=
  ("📱 SMS sent to " ++ phone ++ ": " ++ message, log ++ [smsLogLine now phone message])

/-- The line `EmailSender.send_email` appends to its log (the source
writes `f"{patient_email}: {message}"` — no timestamp). -/
def emailLogLine (email message : String) : String := email ++ ": " ++ message

/-- `EmailSender.send_email`: status string and updated log. -/
def send_email (log : List String) (email message : String) : String × List String :=
  ("📧 Email sent to " ++ email ++ ": " ++ message, log ++ [emailLogLine email message])

/-- `EmailSender.send_intake_form`: reports found or missing depending on
the fixed form path's existence (passed in as `formExists`). -/
def send_intake_form (formExists : Bool) (formPath email : String) : String :=
  if formExists then "📧 Sent intake form to " ++ email ++ " (" ++ formPath ++ ")"
  else "⚠️ Intake form not found!"

/-- The per-step message table of `ReminderSystem.send_reminder`. -/
def reminderMessage (patient_name : String) (step : Nat) : String :=
  if step = 1 then
    "Reminder: Hi " ++ patient_name ++ ", you have an upcoming appointment. Please confirm."
  else if step = 2 then
    "Reminder: Hi " ++ patient_name ++ ", have you filled out your intake form?"
  else if step = 3 then
    "Reminder: Hi " ++ patient_name ++
      ", is your visit confirmed? If not, please provide reason for cancellation."
  else "Unknown reminder step."

/-- `ReminderSystem.send_reminder`: returns the message and appends a
timestamped line to the reminders log. -/
def send_reminder (now : String) (log : List String) (patient_name : String)
    (step : Nat) : String × List String :=
  (reminderMessage patient_name step,
   log ++ [now ++ " - " ++ reminderMessage patient_name step])

/-! ## Pipeline orchestrator (`utils/agents.py`)

The LLM-assisted extraction branch is an external collaborator (out of
scope per the spec); the model covers the credential-free path, in which
`self.llm` is `None` and the fallback parser runs. -/

/-- `_basic_parse_patient_input`: comma-split, strip each part, then
positional assignment gated by the part count. -/
def basic_parse_patient_input (input_text : String) : List (String × String) :=
  let parts := (splitChar ',' input_text).map pyStrip
  let d : List (String × String) :=
    if parts.length ≥ 2 then
      [("Name", parts.getD 0 ""), ("DOB", parts.getD 1 "")]
    else []
  let d :=
    if parts.length ≥ 4 then
      d ++ [("InsuranceCarrier", parts.getD 2 ""), ("MemberID", parts.getD 3 "")]
    else d
  if parts.length ≥ 5 then d ++ [("GroupNumber", parts.getD 4 "")] else d

/-- The shared state threaded through the LangGraph workflow
(`AgentState`); slot dicts keep their `row_index` as the `Nat`
component. -/
structure AgentState where
  patient_input : String
  patient_data : List (String × String)
  available_slots : List (Nat × Row)
  selected_slot : Row
  messages : List String
  current_step : String
  errors : List String
deriving Repr, DecidableEq

/-- The world the pipeline reads and writes besides `AgentState`:
the schedule table and the simulated log sinks / admin export. -/
structure PipeWorld where
  sched : Table
  emailLog : List String
  smsLog : List String
  reminderLog : List String
  exports : List (List (String × Option String))
deriving Repr, DecidableEq

/-- `AgentState` at the start of `process_patient_request`. -/
def initialAgentState (input : String) : AgentState :=
  { patient_input := input, patient_data := [], available_slots := [],
    selected_slot := [], messages := [], current_step := "start", errors := [] }

/-- `patient_agent` on the fallback (no-LLM) path: parse, look up the
roster when both `Name` and `DOB` are truthy, set `Status`.  None of the
modelled operations can raise, so the `except` branch is unreachable
here. -/
def patient_agent (roster : Table) (s : AgentState) : AgentState :=
  let pd := basic_parse_patient_input s.patient_input
  let nm := rowGet pd "Name"
  let db := rowGet pd "DOB"
  let pd :=
    if nm ≠ "" && db ≠ "" then
      match find_patient roster nm db with
      | some existing => rowSet (rowSet pd "Status" "Returning") "ExistingRecord" existing
      | none => rowSet pd "Status" "New"
    else pd
  { s with patient_data := pd, current_step := "patient_processed",
           messages := s.messages ++
             ["✅ Patient processed: " ++ (rowGetOpt pd "Name").getD "Unknown"] }

/-- `scheduler_agent`: query up to 5 slots with the stored preferences;
an empty result is recorded as an error. -/
def scheduler_agent (sched : Table) (s : AgentState) : AgentState :=
  let duration : Nat := if rowGetOpt s.patient_data "Status" == some "New" then 60 else 30
  let slots := get_available_slots_idx sched 5
    (rowGetOpt s.patient_data "PreferredDoctor")
    (rowGetOpt s.patient_data "PreferredLocation")
  if slots.isEmpty then
    { s with errors := s.errors ++ ["No available slots found"], current_step := "error" }
  else
    { s with available_slots := slots, current_step := "slots_available",
             messages := s.messages ++
               ["📅 Found " ++ toString slots.length ++ " available slots (Duration: " ++
                toString duration ++ "min)"] }

/-- `confirmation_agent`: auto-select the first available slot and book
it; a falsy booking result (Python `None` or an empty dict) is recorded
as an error. -/
def confirmation_agent (sched : Table) (s : AgentState) : AgentState × Table :=
  match s.available_slots with
  | [] =>
    ({ s with
        errors := s.errors ++ ["No slots to confirm"],
        current_step := "error" }, sched)
  | sel :: _ =>
    match book_slot_by_row_index sched sel.1 with
    | (none, sched1) =>
      ({ s with
          errors := s.errors ++ ["Failed to book selected slot"],
          current_step := "error" }, sched1)
    | (some booked, sched1) =>
      if booked.isEmpty then
        ({ s with
            errors := s.errors ++ ["Failed to book selected slot"],
            current_step := "error" }, sched1)
      else
        ({ s with
            selected_slot := booked,
            current_step := "appointment_booked",
            messages := s.messages ++
              ["✅ Appointment confirmed with " ++
               ((rowGetOpt booked "DoctorName").getD ((rowGetOpt booked "Doctor").getD "Doctor")) ++
               " on " ++ ((rowGetOpt booked "Date").getD ((rowGetOpt booked "Day").getD "Date")) ++
               " at " ++
               ((rowGetOpt booked "TimeSlot").getD ((rowGetOpt booked "Time").getD "Time"))] },
         sched1)

/-- The admin-export record written by `communication_agent`
(`DurationMins` stringified; `ExportedAt` carries the timestamp). -/
def pipelineExportRecord (pd : List (String × String)) (slot : Row)
    (email phone now : String) : List (String × Option String) :=
  [("Name", rowGetOpt pd "Name"), ("DOB", rowGetOpt pd "DOB"),
   ("Status", rowGetOpt pd "Status"),
   ("InsuranceCarrier", rowGetOpt pd "InsuranceCarrier"),
   ("MemberID", rowGetOpt pd "MemberID"),
   ("GroupNumber", rowGetOpt pd "GroupNumber"),
   ("Email", some email), ("Phone", some phone),
   ("Doctor", some ((rowGetOpt slot "DoctorName").getD "Doctor")),
   ("Date", some ((rowGetOpt slot "Date").getD "Date")),
   ("Time", some ((rowGetOpt slot "TimeSlot").getD "Time")),
   ("DurationMins",
    some (toString (if rowGetOpt pd "Status" == some "New" then (60 : Nat) else 30))),
   ("ExportedAt", some now)]

/-- `communication_agent`: intake form, admin export, reminder #1 with
email and SMS; always completes in the modelled (pure) effects. -/
def communication_agent (formExists : Bool) (formPath now : String)
    (s : AgentState) (w : PipeWorld) : AgentState × PipeWorld :=
  let email := (rowGetOpt s.patient_data "Email").getD "test@example.com"
  let phone := (rowGetOpt s.patient_data "Phone").getD "+1-555-000-0000"
  let intake_msg := send_intake_form formExists formPath email
  let w := { w with exports := w.exports ++
              [pipelineExportRecord s.patient_data s.selected_slot email phone now] }
  let patient_name := (rowGetOpt s.patient_data "Name").getD "Patient"
  let rem := send_reminder now w.reminderLog patient_name 1
  let w := { w with reminderLog := rem.2 }
  let w := { w with emailLog := (send_email w.emailLog email rem.1).2 }
  let w := { w with smsLog := (send_sms now w.smsLog phone rem.1).2 }
  ({ s with
      messages := s.messages ++
        [intake_msg, "📧 Communications sent: intake form, admin export, reminders"],
      current_step := "workflow_complete" }, w)

/-- `error_handler`: concatenate the accumulated errors into one
message. -/
def error_handler (s : AgentState) : AgentState :=
  { s with
      messages := s.messages ++
        ["❌ Errors encountered: " ++ String.intercalate "; " s.errors],
      current_step := "error_handled" }

/-- `_route_after_patient`: `"error"` when the error list is truthy
(non-empty). -/
def route_after_patient (s : AgentState) : String :=
  if s.errors.isEmpty then "schedule" else "error"

/-- `_route_after_scheduler`. -/
def route_after_scheduler (s : AgentState) : String :=
  if s.errors.isEmpty then "confirm" else "error"

/-- `_route_after_confirmation`. -/
def route_after_confirmation (s : AgentState) : String :=
  if s.errors.isEmpty then "communicate" else "error"

/-- Result of one pipeline run: final state, final world, and the list
of graph nodes executed, in order. -/
structure PipeResult where
  state : AgentState
  world : PipeWorld
  trace : List String
deriving Repr, DecidableEq

/-- `process_patient_request` over the compiled graph: START →
patient_agent, then the conditional edges of `_build_workflow`
(each router sends control to the error handler exactly when the error
list is non-empty; `communication_agent` and `error_handler` edge to
END). -/
def runWorkflow (roster : Table) (formExists : Bool) (formPath now : String)
    (w : PipeWorld) (input : String) : PipeResult :=
  let s1 := patient_agent roster (initialAgentState input)
  if route_after_patient s1 == "schedule" then
    let s2 := scheduler_agent w.sched s1
    if route_after_scheduler s2 == "confirm" then
      let s3t := confirmation_agent w.sched s2
      let w1 := { w with sched := s3t.2 }
      if route_after_confirmation s3t.1 == "communicate" then
        let s4w := communication_agent formExists formPath now s3t.1 w1
        ⟨s4w.1, s4w.2,
         ["patient_agent", "scheduler_agent", "confirmation_agent", "communication_agent"]⟩
      else
        ⟨error_handler s3t.1, w1,
         ["patient_agent", "scheduler_agent", "confirmation_agent", "error_handler"]⟩
    else
      ⟨error_handler s2, w, ["patient_agent", "scheduler_agent", "error_handler"]⟩
  else
    ⟨error_handler s1, w, ["patient_agent", "error_handler"]⟩

/-! ## Session state machine (`app.py`, manual step-by-step workflow)

The Streamlit session is modelled as a record; the chat-input handler
becomes `processInput`.  The LangGraph branch (guarded by an API key) is
modelled separately as `runWorkflow`; `processInput` is the
`use_langgraph = False` path. -/

/-- The `st.session_state.step` tag. -/
inductive Step
  | greeting | lookup | preferences | insurance | contact
  | scheduling | confirmation | reminders_action | done
deriving DecidableEq, Repr

/-- Position of a step in the forward order of the workflow. -/
def stepIdx : Step → Nat
  | .greeting => 0
  | .lookup => 1
  | .preferences => 2
  | .insurance => 3
  | .contact => 4
  | .scheduling => 5
  | .confirmation => 6
  | .reminders_action => 7
  | .done => 8

/-- The session: current step, the accumulated patient dict (values may
be Python `None`, e.g. the preferences), the chat transcript as
(role, content) pairs, and the slots snapshot taken at scheduling
time. -/
structure Session where
  step : Step
  patient : List (String × Option String)
  messages : List (String × String)
  slots_view : Option (List (Nat × Row))
deriving Repr, DecidableEq

/-- Everything a chat turn can read or write: the session plus the
schedule table, the admin export, and the three log sinks. -/
structure ChatWorld where
  session : Session
  sched : Table
  exports : List (List (String × Option String))
  emailLog : List String
  smsLog : List String
  reminderLog : List String
deriving Repr, DecidableEq

/-- `patient.get(k)`: `None` both when the key is absent and when the
stored value is `None`. -/
def pGet (p : List (String × Option String)) (k : String) : Option String :=
  ((p.find? (fun q => q.1 == k)).map Prod.snd).getD none

/-- `k in patient` (distinguishes an absent key from a stored `None`,
which matters for direct indexing `patient[k]`). -/
def pHas (p : List (String × Option String)) (k : String) : Bool :=
  (p.find? (fun q => q.1 == k)).isSome

/-- `patient.get(k, default)` followed by string interpolation: a stored
`None` renders as `"None"`, an absent key yields the default. -/
def pDictGet (p : List (String × Option String)) (k default : String) : String :=
  match p.find? (fun q => q.1 == k) with
  | some q => match q.2 with | some v => v | none => "None"
  | none => default

/-- Dict assignment `patient[k] = v` (replace first binding or append). -/
def pSet : List (String × Option String) → String → Option String →
    List (String × Option String)
  | [], k, v => [(k, v)]
  | q :: rest, k, v => if q.1 == k then (k, v) :: rest else q :: pSet rest k v

/-- Leap-year rule used by `datetime.date`. -/
def isLeap (y : Nat) : Bool := (y % 4 == 0 && y % 100 != 0) || y % 400 == 0

/-- Days in a month, Gregorian. -/
def daysInMonth (y m : Nat) : Nat :=
  if m = 2 then (if isLeap y then 29 else 28)
  else if [4, 6, 9, 11].contains m then 30 else 31

/-- Numeric value of a digit string. -/
def digitsVal (l : List Char) : Nat := l.foldl (fun a d => a * 10 + (d.toNat - 48)) 0

/-- `datetime.strptime(s, "%Y-%m-%d").date()`: four-digit year, one- or
two-digit month and day, full-string match, and a calendar-valid date;
`none` models the `ValueError`. -/
def parseDateYMD (s : String) : Option (Nat × Nat × Nat) :=
  match splitChar '-' s with
  | [ys, ms, ds] =>
    if ys.length = 4 && ys.data.all Char.isDigit
        && (ms.length = 1 || ms.length = 2) && ms.data.all Char.isDigit
        && (ds.length = 1 || ds.length = 2) && ds.data.all Char.isDigit then
      let y := digitsVal ys.data
      let m := digitsVal ms.data
      let d := digitsVal ds.data
      if 1 ≤ y && 1 ≤ m && m ≤ 12 && 1 ≤ d && d ≤ daysInMonth y m then
        some (y, m, d)
      else none
    else none
  | _ => none

/-- Zero-pad to two digits. -/
def pad2 (n : Nat) : String := if n < 10 then "0" ++ toString n else toString n

/-- Zero-pad to four digits. -/
def pad4 (n : Nat) : String :=
  if n < 10 then "000" ++ toString n
  else if n < 100 then "00" ++ toString n
  else if n < 1000 then "0" ++ toString n
  else toString n

/-- `str(datetime.date(y, m, d))`. -/
def fmtDate (y m d : Nat) : String := pad4 y ++ "-" ++ pad2 m ++ "-" ++ pad2 d

/-- Python `int(s)` (sign and ASCII digits after stripping whitespace);
`none` models the `ValueError`. -/
def pyInt (s : String) : Option Int :=
  match (pyStrip s).data with
  | [] => none
  | c :: rest =>
    let digits := if c = '-' || c = '+' then rest else c :: rest
    if !digits.isEmpty && digits.all Char.isDigit then
      some (if c = '-' then -(digitsVal digits : Int) else (digitsVal digits : Int))
    else none

/-- The re-prompt appended by the lookup step's `except` branch. -/
def lookupFail (s : Session) : Session :=
  { s with
      messages := s.messages ++
        [("assistant",
          "❌ Please enter format: Name, YYYY-MM-DD (e.g., John Doe, 1985-02-14).")] }

/-- Step 2 (lookup): parse `"Name, YYYY-MM-DD"`, query the roster, set
`Name`/`DOB`/`Status`, prompt for preferences, advance; on any parse
failure re-prompt and stay. -/
def handleLookup (roster : Table) (s : Session) (prompt : String) : Session :=
  let parts := splitChar ',' prompt
  if parts.length = 2 then
    let name := pyStrip (parts.getD 0 "")
    match parseDateYMD (pyStrip (parts.getD 1 "")) with
    | none => lookupFail s
    | some ymd =>
      let dobS := fmtDate ymd.1 ymd.2.1 ymd.2.2
      let patient1 :=
        pSet (pSet s.patient "Name" (some name)) "DOB" (some dobS)
      let s1 :=
        match find_patient roster name dobS with
        | some response =>
          { s with
              messages := s.messages ++
                [("assistant", "✅ Found returning patient record:\n" ++ response)],
              patient := pSet patient1 "Status" (some "Returning") }
        | none =>
          { s with
              messages := s.messages ++
                [("assistant",
                  "Looks like you are a new patient, " ++ name ++
                  ". Let\x27s continue with insurance details.")],
              patient := pSet patient1 "Status" (some "New") }
      { s1 with
          messages := s1.messages ++
            [("assistant",
              "Do you have a preferred Doctor and Location? If yes, enter: Doctor, Location. If no, type \x27any\x27.")],
          step := Step.preferences }
  else lookupFail s

/-- Step 3a (preferences): `"any"` stores `None`/`None`, otherwise
`"Doctor, Location"`; then prompt for insurance and advance. -/
def handlePreferences (s : Session) (prompt : String) : Session :=
  let go (pd pl : Option String) : Session :=
    { s with
        patient := pSet (pSet s.patient "PreferredDoctor" pd) "PreferredLocation" pl,
        messages := s.messages ++
          [("assistant",
            "Please provide your Insurance Carrier, Member ID, and Group Number (comma separated).")],
        step := Step.insurance }
  if pyLower (pyStrip prompt) == "any" then go none none
  else
    let parts := splitChar ',' prompt
    if parts.length = 2 then
      go (some (pyStrip (parts.getD 0 ""))) (some (pyStrip (parts.getD 1 "")))
    else
      { s with
          messages := s.messages ++
            [("assistant", "❌ Please enter \x27any\x27 or: Doctor, Location")] }

/-- Step 3b (insurance): exactly three comma-fields or re-prompt. -/
def handleInsurance (s : Session) (prompt : String) : Session :=
  let parts := splitChar ',' prompt
  if parts.length = 3 then
    let carrier := pyStrip (parts.getD 0 "")
    let member_id := pyStrip (parts.getD 1 "")
    let group_num := pyStrip (parts.getD 2 "")
    { s with
        patient :=
          pSet (pSet (pSet s.patient "InsuranceCarrier" (some carrier))
            "MemberID" (some member_id)) "GroupNumber" (some group_num),
        messages := s.messages ++
          [("assistant",
            "✅ Insurance recorded: " ++ carrier ++ ", Member ID: " ++ member_id ++
            ", Group: " ++ group_num),
           ("assistant",
            "Please provide your Email and Phone (comma separated), e.g., name@example.com, +1-555-123-4567")],
        step := Step.contact }
  else
    { s with
        messages := s.messages ++
          [("assistant", "❌ Please enter format: Carrier, MemberID, GroupNumber")] }

/-- Step 3c (contact): exactly two comma-fields or re-prompt. -/
def handleContact (s : Session) (prompt : String) : Session :=
  let parts := splitChar ',' prompt
  if parts.length = 2 then
    let email := pyStrip (parts.getD 0 "")
    let phone := pyStrip (parts.getD 1 "")
    { s with
        patient := pSet (pSet s.patient "Email" (some email)) "Phone" (some phone),
        messages := s.messages ++
          [("assistant", "✅ Contact saved: " ++ email ++ ", " ++ phone)],
        step := Step.scheduling }
  else
    { s with
        messages := s.messages ++
          [("assistant", "❌ Please enter format: email@example.com, +1-555-123-4567")] }

/-- One rendered slot line `"{n}. {doctor} - {date} {time_slot}"` with
the column-name fallbacks of `app.py`. -/
def slotLine (n : Nat) (row : Row) : String :=
  toString n ++ ". " ++
  ((rowGetOpt row "DoctorName").getD ((rowGetOpt row "Doctor").getD
    ((rowGetOpt row "Provider").getD "Doctor"))) ++ " - " ++
  ((rowGetOpt row "Date").getD ((rowGetOpt row "Day").getD
    ((rowGetOpt row "AppointmentDate").getD "Date"))) ++ " " ++
  ((rowGetOpt row "TimeSlot").getD ((rowGetOpt row "Time").getD
    ((rowGetOpt row "Slot").getD "Time")))

/-- Step 4 (scheduling): query slots with the stored preferences; empty
→ terminal message and `done`, else snapshot the listing, render it and
advance to confirmation. -/
def handleScheduling (w : ChatWorld) (s : Session) : ChatWorld :=
  let duration : Nat := if pGet s.patient "Status" == some "New" then 60 else 30
  let slots := get_available_slots_idx w.sched 5
    (pGet s.patient "PreferredDoctor") (pGet s.patient "PreferredLocation")
  if slots.isEmpty then
    { w with session :=
        { s with
            messages := s.messages ++
              [("assistant",
                "🚫 No available slots at the moment. Please try again later or contact the office.")],
            step := Step.done } }
  else
    let slot_text := String.intercalate "\n"
      ((slots.enum).map (fun p => slotLine (p.1 + 1) p.2.2))
    { w with session :=
        { s with
            slots_view := some slots,
            messages := s.messages ++
              [("assistant",
                "Here are available slots (Duration: " ++ toString duration ++
                " mins):\n" ++ slot_text ++ "\n\nPlease pick a slot number.")],
            step := Step.confirmation } }

/-- The re-prompt of the confirmation step's `except` branch. -/
def confirmFail (w : ChatWorld) (s : Session) : ChatWorld :=
  { w with session :=
      { s with
          messages := s.messages ++
            [("assistant", "❌ Invalid choice. Please select a valid slot number.")] } }

/-- The appointment record `app.py` hands to `AdminExporter` (with the
`ExportedAt` timestamp `append_appointment` adds; `DurationMins`
stringified). -/
def appExportRecord (patient : List (String × Option String))
    (doctor date time email phone now : String) : List (String × Option String) :=
  [("Name", pGet patient "Name"), ("DOB", pGet patient "DOB"),
   ("Status", pGet patient "Status"),
   ("InsuranceCarrier", pGet patient "InsuranceCarrier"),
   ("MemberID", pGet patient "MemberID"),
   ("GroupNumber", pGet patient "GroupNumber"),
   ("Email", some email), ("Phone", some phone),
   ("Doctor", some doctor), ("Date", some date), ("Time", some time),
   ("DurationMins",
    some (toString (if pGet patient "Status" == some "New" then (60 : Nat) else 30))),
   ("ExportedAt", some now)]

/-- Step 5 (confirmation): validate the 1-based choice against the
snapshot, book by the underlying row index, send the intake form,
export, fire reminder #1 with email and SMS, and advance.  Each raise
point of the Python `try` block maps to the `except` re-prompt, keeping
whatever effects already happened (the `KeyError` on a missing
`patient["Name"]` occurs after booking and export). -/
def handleConfirmation (formExists : Bool) (formPath now : String)
    (w : ChatWorld) (s : Session) (prompt : String) : ChatWorld :=
  match pyInt prompt with
  | none => confirmFail w s
  | some n =>
    let choice : Int := n - 1
    match s.slots_view with
    | none => confirmFail w s
    | some sv =>
      if choice < 0 || (sv.length : Int) ≤ choice then confirmFail w s
      else
        let sel := sv.getD choice.toNat (0, [])
        match book_slot_by_row_index w.sched sel.1 with
        | (none, sched1) => confirmFail { w with sched := sched1 } s
        | (some chosen, sched1) =>
          let doctor := (rowGetOpt chosen "DoctorName").getD
            ((rowGetOpt chosen "Doctor").getD ((rowGetOpt chosen "Provider").getD "Doctor"))
          let date := (rowGetOpt chosen "Date").getD
            ((rowGetOpt chosen "Day").getD ((rowGetOpt chosen "AppointmentDate").getD "Date"))
          let time_slot := (rowGetOpt chosen "TimeSlot").getD
            ((rowGetOpt chosen "Time").getD ((rowGetOpt chosen "Slot").getD "Time"))
          let email_to := pDictGet s.patient "Email" "test_patient@example.com"
          let phone_to := pDictGet s.patient "Phone" "+1-555-000-0000"
          let email_msg := send_intake_form formExists formPath email_to
          let s := { s with
            messages := s.messages ++
              [("assistant",
                "✅ Appointment confirmed with " ++ doctor ++ " on " ++ date ++
                " at " ++ time_slot ++ "!"),
               ("assistant", email_msg)] }
          let w := { w with
            sched := sched1,
            exports := w.exports ++
              [appExportRecord s.patient doctor date time_slot email_to phone_to now] }
          if pHas s.patient "Name" then
            let patient_name := pDictGet s.patient "Name" "Patient"
            let rem := send_reminder now w.reminderLog patient_name 1
            let em := send_email w.emailLog email_to rem.1
            let sm := send_sms now w.smsLog phone_to rem.1
            { w with
                reminderLog := rem.2, emailLog := em.2, smsLog := sm.2,
                session :=
                  { s with
                      messages := s.messages ++
                        [("assistant", "📅 Reminder scheduled: " ++ rem.1),
                         ("assistant", em.1),
                         ("assistant", sm.1),
                         ("assistant",
                          "For the next reminders: 2) Have you filled the forms? 3) Is your visit confirmed? If not, provide reason.\nPlease reply in the format: forms=<yes/no>, confirm=<yes/no>, reason=<text or NA>")],
                      step := Step.reminders_action } }
          else
            { w with session :=
                { s with
                    messages := s.messages ++
                      [("assistant", "❌ Invalid choice. Please select a valid slot number.")] } }

/-- Dict assignment for the string-valued `kv` map of the reminders
step. -/
def kvSet : List (String × String) → String → String → List (String × String)
  | [], k, v => [(k, v)]
  | q :: rest, k, v => if q.1 == k then (k, v) :: rest else q :: kvSet rest k v

/-- The `key=value` parser of the reminders step: comma-split, strip,
keep parts containing `"="`, split each at the first `"="`. -/
def parseKv (prompt : String) : List (String × String) :=
  ((splitChar ',' (pyStrip prompt)).map pyStrip).foldl
    (fun acc p =>
      if p.data.contains '=' then
        let ps := splitChar '=' p
        kvSet acc (pyLower (pyStrip (ps.getD 0 "")))
          (pyStrip (String.intercalate "=" (ps.drop 1)))
      else acc) []

/-- Step 6 (reminders_action): parse `forms=`/`confirm=`/`reason=`,
send reminders #2 and #3 each with email and SMS, and finish.  No raise
point of the Python `try` block is reachable in the modelled (pure)
effects, so the handler always completes. -/
def handleReminders (now : String) (w : ChatWorld) (s : Session)
    (prompt : String) : ChatWorld :=
  let kv := parseKv prompt
  let filled := ["yes", "y", "true"].contains (pyLower (rowGet kv "forms"))
  let confirmed := ["yes", "y", "true"].contains (pyLower (rowGet kv "confirm"))
  let reason := (rowGetOpt kv "reason").getD "NA"
  let patient_name := pDictGet s.patient "Name" "Patient"
  let email_to := pDictGet s.patient "Email" "test_patient@example.com"
  let phone_to := pDictGet s.patient "Phone" "+1-555-000-0000"
  let msg2 := "Have you filled the forms? Our record: " ++ (if filled then "Yes" else "No")
  let em2 := send_email w.emailLog email_to msg2
  let sm2 := send_sms now w.smsLog phone_to msg2
  let rem2 := send_reminder now w.reminderLog patient_name 2
  let msg3 :=
    if confirmed then "Your visit is confirmed. See you soon!"
    else "Your visit is not confirmed. Reason for cancellation: " ++ reason
  let em3 := send_email em2.2 email_to msg3
  let sm3 := send_sms now sm2.2 phone_to msg3
  let rem3 := send_reminder now rem2.2 patient_name 3
  { w with
      emailLog := em3.2, smsLog := sm3.2, reminderLog := rem3.2,
      session :=
        { s with
            messages := s.messages ++
              [("assistant", msg2), ("assistant", msg3),
               ("assistant", "✅ Workflow complete.")],
            step := Step.done } }

/-- One chat turn of the manual workflow: append the user message,
advance `greeting` to `lookup` (the first input is processed as a lookup
immediately), then dispatch on the current step; the `done` step has no
handler. -/
def processInput (roster : Table) (formExists : Bool) (formPath now : String)
    (w : ChatWorld) (prompt : String) : ChatWorld :=
  let s0 := w.session
  let s0 := { s0 with messages := s0.messages ++ [("user", prompt)] }
  let s0 := if s0.step = Step.greeting then { s0 with step := Step.lookup } else s0
  if s0.step = Step.lookup then { w with session := handleLookup roster s0 prompt }
  else if s0.step = Step.preferences then { w with session := handlePreferences s0 prompt }
  else if s0.step = Step.insurance then { w with session := handleInsurance s0 prompt }
  else if s0.step = Step.contact then { w with session := handleContact s0 prompt }
  else if s0.step = Step.scheduling then handleScheduling w s0
  else if s0.step = Step.confirmation then handleConfirmation formExists formPath now w s0 prompt
  else if s0.step = Step.reminders_action then handleReminders now w s0 prompt
  else { w with session := s0 }

/-! ## Lookup as a state-passing operation (for idempotence claims)

`find_patient` re-reads the roster file on every call; the file is the
state, returned unchanged because the lookup performs no write. -/

/-- One lookup call against the stored roster: result and
(unchanged) roster state. -/
def find_patient_op (roster : Table) (name dob : String) : Option String × Table :=
  (find_patient roster name dob, roster)

/-! ## Concrete fixtures for witnesses and counterexamples -/

/-- A one-row roster in the shape of `Data/patients.csv`. -/
def rosterEx : Table :=
  ⟨["Name", "DOB", "InsuranceCarrier", "MemberID", "GroupNumber", "Status"],
   [[("Name", "Jane Doe"), ("DOB", "1990-05-14"), ("InsuranceCarrier", "Cigna"),
     ("MemberID", "123456789"), ("GroupNumber", "G12345"), ("Status", "Active")]]⟩

/-- A roster row whose cells are all blank (a CSV with empty cells reads
back as empty strings). -/
def rosterBlank : Table := ⟨["Name", "DOB"], [[("Name", ""), ("DOB", "")]]⟩

/-- A three-row schedule with a booked middle row. -/
def schedEx : Table :=
  ⟨["DoctorName", "Date", "TimeSlot", "Status", "Location"],
   [[("DoctorName", "Dr. A"), ("Date", "2025-01-06"), ("TimeSlot", "09:00"),
     ("Status", "Available"), ("Location", "Main")],
    [("DoctorName", "Dr. B"), ("Date", "2025-01-06"), ("TimeSlot", "10:00"),
     ("Status", "Booked"), ("Location", "Main")],
    [("DoctorName", "Dr. A"), ("Date", "2025-01-07"), ("TimeSlot", "11:00"),
     ("Status", " available "), ("Location", "East")]]⟩

/-- A one-row schedule with one available slot. -/
def schedOne : Table :=
  ⟨["DoctorName", "Date", "TimeSlot", "Status", "Location"],
   [[("DoctorName", "Dr. A"), ("Date", "2025-01-06"), ("TimeSlot", "09:00"),
     ("Status", "Available"), ("Location", "Main")]]⟩

/-- A schedule with neither a `Status` nor an `Available` column. -/
def schedNoFlag : Table :=
  ⟨["DoctorName", "Date", "TimeSlot"],
   [[("DoctorName", "Dr. A"), ("Date", "2025-01-06"), ("TimeSlot", "09:00")],
    [("DoctorName", "Dr. B"), ("Date", "2025-01-06"), ("TimeSlot", "10:00")]]⟩

/-- An empty schedule (no rows). -/
def schedEmpty : Table :=
  ⟨["DoctorName", "Date", "TimeSlot", "Status", "Location"], []⟩

/-- A chat world resting at the insurance step. -/
def worldAtInsurance : ChatWorld :=
  ⟨⟨Step.insurance,
    [("Name", some "Jane Doe"), ("DOB", some "1990-05-14"),
     ("Status", some "Returning"), ("PreferredDoctor", none),
     ("PreferredLocation", none)],
    [("assistant", "Please provide your Insurance Carrier, Member ID, and Group Number (comma separated).")],
    none⟩,
   schedEx, [], [], [], []⟩

/-- A pipeline world over the empty schedule. -/
def pipeWorldEmpty : PipeWorld := ⟨schedEmpty, [], [], [], []⟩

/-! # Theorems -/

/-! ## Generic helper lemmas -/

lemma str_length_zero_iff (s : String) : s.length = 0 ↔ s = "" := by
  rw [String.ext_iff]
  show s.data.length = 0 ↔ s.data = []
  exact List.length_eq_zero

lemma pyLower_eq_empty_iff (s : String) : pyLower s = "" ↔ s = "" := by
  rw [String.ext_iff, String.ext_iff]
  show s.data.map Char.toLower = [] ↔ s.data = []
  simp

lemma joinComma_cons_ne (x : String) (xs : List String) (hx : x ≠ "") :
    joinComma (x :: xs) ≠ "" := by
  cases xs with
  | nil => simpa [joinComma] using hx
  | cons y ys =>
    intro hcontra
    have hc : x ++ ", " ++ joinComma (y :: ys) = "" := hcontra
    have hlen := congrArg String.length hc
    rw [String.length_append, String.length_append] at hlen
    have hx0 : x.length ≠ 0 := fun h => hx ((str_length_zero_iff x).mp h)
    have h2 : (", " : String).length = 2 := by decide
    have h0 : ("" : String).length = 0 := by decide
    rw [h2, h0] at hlen
    omega

lemma buildSummary_ne (cols : List String) (row : Row)
    (hn : cols.contains "Name" = true) (hv : pyStrip (rowGet row "Name") ≠ "") :
    buildSummary cols row ≠ "" := by
  have hb : (pyStrip (rowGet row "Name") != "") = true := by
    simpa [bne_iff_ne] using hv
  unfold buildSummary summaryFields
  simp only [List.filterMap_cons, hn, hb, Bool.and_self, if_true, Bool.true_and]
  apply joinComma_cons_ne
  intro hcontra
  have hlen := congrArg String.length hcontra
  rw [String.length_append] at hlen
  have h6 : (("Name" : String) ++ ": ").length = 6 := by decide
  have h0 : ("" : String).length = 0 := by decide
  rw [h6, h0] at hlen
  omega

/-! ## C1 — patient lookup -/

/-- C1 counterexample: A roster row whose `Name` and `DOB` cells
are blank matches the inputs `("", "")`, yet the summary `find_patient`
returns for it is the *empty* string, refuting "returns a non-empty
summary string if and only if some roster row matches". -/
theorem C1_counterexample :
    matchesPatient "" "" [("Name", ""), ("DOB", "")] = true
    ∧ find_patient rosterBlank "" "" = some "" := by
  constructor
  · decide
  · decide

/-- C1 amended: Over tables with `Name` and `DOB` columns:
`find_patient` returns a summary exactly when some row matches the name
case- and whitespace-insensitively and the DOB exactly after trimming;
the summary returned is built (as `"Label: value"` pairs joined) from
the first matching row; and it is non-empty whenever the queried name is
non-blank. -/
theorem C1_find_patient_characterization (t : Table) (name dob : String)
    (hn : t.cols.contains "Name" = true) (hd : t.cols.contains "DOB" = true) :
    ((find_patient t name dob).isSome ↔ ∃ r ∈ t.rows, matchesPatient name dob r = true)
    ∧ (∀ r, t.rows.find? (matchesPatient name dob) = some r →
        find_patient t name dob = some (buildSummary t.cols r))
    ∧ (pyStrip name ≠ "" → ∀ s, find_patient t name dob = some s → s ≠ "") := by
  have hcols : (t.cols.contains "Name" && t.cols.contains "DOB") = true := by
    rw [hn, hd]
    rfl
  refine ⟨?_, ?_, ?_⟩
  · unfold find_patient
    rw [if_pos hcols]
    cases hf : t.rows.find? (matchesPatient name dob) with
    | none =>
      simp only [Option.isSome_none, Bool.false_eq_true, false_iff]
      rw [List.find?_eq_none] at hf
      rintro ⟨r, hr, hmr⟩
      exact absurd hmr (by simpa using hf r hr)
    | some r =>
      simp only [Option.isSome_some, true_iff]
      exact ⟨r, List.mem_of_find?_eq_some hf, List.find?_some hf⟩
  · intro r hf
    unfold find_patient
    rw [if_pos hcols, hf]
  · intro hname s hs hempty
    subst hempty
    rw [find_patient, if_pos hcols] at hs
    cases hf : t.rows.find? (matchesPatient name dob) with
    | none => rw [hf] at hs; cases hs
    | some r =>
      rw [hf] at hs
      have hsum : buildSummary t.cols r = "" := by
        simpa using hs
      have hm := List.find?_some hf
      rw [matchesPatient, Bool.and_eq_true] at hm
      have hmn : pyLower (pyStrip (rowGet r "Name")) = pyLower (pyStrip name) := by
        simpa using hm.1
      have hrne : pyStrip (rowGet r "Name") ≠ "" := by
        intro h0
        rw [h0] at hmn
        have h1 : pyLower (pyStrip name) = "" := hmn.symm.trans (by decide)
        exact hname ((pyLower_eq_empty_iff _).mp h1)
      exact buildSummary_ne t.cols r hn hrne hsum

/-- C1 witness: The characterization applied to the one-row
roster fixture at a case/whitespace-perturbed query. -/
theorem C1_witness :
    (find_patient rosterEx "  JANE doe" "1990-05-14").isSome = true := by
  have h := C1_find_patient_characterization rosterEx "  JANE doe" "1990-05-14"
    (by decide) (by decide)
  exact h.1.mpr ⟨rosterEx.rows.getD 0 [], by decide, by decide⟩

/-! ## C9 — lookup idempotence -/

/-- C9: A lookup leaves the roster state unchanged, so two
successive identical lookups (no intervening writes) return identical
results. -/
theorem C9_lookup_idempotent (roster : Table) (name dob : String)
    (r1 r2 : Option String × Table)
    (h1 : r1 = find_patient_op roster name dob)
    (h2 : r2 = find_patient_op r1.2 name dob) :
    r1.2 = roster ∧ r1.1 = r2.1 := by
  subst h1
  subst h2
  exact ⟨rfl, rfl⟩

/-- C9 witness: Two successive lookups of Jane Doe against the
fixture roster. -/
theorem C9_witness :
    (find_patient_op rosterEx "Jane Doe" "1990-05-14").2 = rosterEx
    ∧ (find_patient_op rosterEx "Jane Doe" "1990-05-14").1 =
      (find_patient_op (find_patient_op rosterEx "Jane Doe" "1990-05-14").2
        "Jane Doe" "1990-05-14").1 :=
  C9_lookup_idempotent rosterEx "Jane Doe" "1990-05-14" _ _ rfl rfl

/-! ## C2 / C10 — slot listing -/

lemma applyOptFilter_sublist (cols cands : List String) (v : Option String)
    (rows : List (Nat × Row)) : (applyOptFilter cols cands v rows).Sublist rows := by
  cases v with
  | none => exact List.Sublist.refl _
  | some s =>
    show (if s = "" then rows
      else match find_col cols cands with
        | none => rows
        | some c => eqFilter c s rows).Sublist rows
    by_cases hs : s = ""
    · rw [if_pos hs]
    · rw [if_neg hs]
      cases hc : find_col cols cands with
      | none => exact List.Sublist.refl _
      | some c => exact List.filter_sublist _

lemma gas_idx_sublist (t : Table) (limit : Nat) (d l : Option String) :
    (get_available_slots_idx t limit d l).Sublist t.rows.enum :=
  (List.take_sublist _ _).trans
    ((applyOptFilter_sublist _ _ _ _).trans
      ((applyOptFilter_sublist _ _ _ _).trans (List.filter_sublist _)))

lemma mem_gas_idx_availMask (t : Table) (limit : Nat) (d l : Option String)
    (p : Nat × Row) (hp : p ∈ get_available_slots_idx t limit d l) :
    availMask t.cols p.2 = true := by
  have h1 : p ∈ t.rows.enum.filter (fun q => availMask t.cols q.2) :=
    (applyOptFilter_sublist _ _ _ _).subset
      ((applyOptFilter_sublist _ _ _ _).subset ((List.take_sublist _ _).subset hp))
  exact (List.mem_filter.mp h1).2

lemma mem_gas_availMask (t : Table) (limit : Nat) (d l : Option String) (r : Row)
    (hr : r ∈ get_available_slots t limit d l) : availMask t.cols r = true := by
  rw [get_available_slots] at hr
  obtain ⟨p, hp, rfl⟩ := List.mem_map.mp hr
  exact mem_gas_idx_availMask t limit d l p hp

/-- C2: Every row returned by `get_available_slots` passes the
availability test of the table's flag column (`Status` compared to
`"available"` case/whitespace-insensitively, else `Available` against
the synonym values); returned rows are a subsequence of the table's
rows (original order preserved); and at most `limit` rows are
returned. -/
theorem C2_available_slots (t : Table) (limit : Nat) (doctor location : Option String)
    (r : Row) (hr : r ∈ get_available_slots t limit doctor location) :
    (get_available_slots t limit doctor location).length ≤ limit
    ∧ (get_available_slots t limit doctor location).Sublist t.rows
    ∧ (t.cols.contains "Status" = true →
        pyLower (pyStrip (rowGet r "Status")) = "available")
    ∧ (t.cols.contains "Status" = false → t.cols.contains "Available" = true →
        pyLower (pyStrip (rowGet r "Available")) ∈ ["yes", "true", "1", "available"]) := by
  have hm := mem_gas_availMask t limit doctor location r hr
  refine ⟨?_, ?_, ?_, ?_⟩
  · rw [get_available_slots, List.length_map, get_available_slots_idx, List.length_take]
    exact min_le_left _ _
  · have h := (gas_idx_sublist t limit doctor location).map Prod.snd
    rw [List.enum_map_snd] at h
    exact h
  · intro hS
    rw [availMask, if_pos hS] at hm
    exact eq_of_beq hm
  · intro hS hA
    rw [availMask, if_neg (by rw [hS]; exact Bool.false_ne_true), if_pos hA] at hm
    simpa using hm

/-- C2 witness: On the three-row fixture schedule the listing
keeps only rows whose `Status` strips and lowers to `"available"`. -/
theorem C2_witness :
    pyLower (pyStrip (rowGet (schedEx.rows.getD 2 []) "Status")) = "available"
    ∧ (get_available_slots schedEx 2 none none).length ≤ 2 := by
  have h := C2_available_slots schedEx 2 none none (schedEx.rows.getD 2 []) (by decide)
  exact ⟨h.2.2.1 (by decide), h.1⟩

/-- C10: With neither a `Status` nor an `Available` column, every
row counts as available: the result is the first `limit` rows subject
only to the doctor/location filters, and with no filters it is exactly
`rows.take limit`. -/
theorem C10_no_flag_columns (t : Table) (limit : Nat) (doctor location : Option String)
    (hs : t.cols.contains "Status" = false) (ha : t.cols.contains "Available" = false) :
    get_available_slots t limit doctor location =
      ((applyOptFilter t.cols locationCols location
        (applyOptFilter t.cols doctorCols doctor t.rows.enum)).take limit).map Prod.snd
    ∧ get_available_slots t limit none none = t.rows.take limit := by
  have hfilter : t.rows.enum.filter (fun q => availMask t.cols q.2) = t.rows.enum := by
    apply List.filter_eq_self.mpr
    intro p _
    rw [availMask, if_neg (by rw [hs]; exact Bool.false_ne_true),
      if_neg (by rw [ha]; exact Bool.false_ne_true)]
  constructor
  · rw [get_available_slots, get_available_slots_idx, hfilter]
  · rw [get_available_slots, get_available_slots_idx, hfilter]
    show ((t.rows.enum).take limit).map Prod.snd = t.rows.take limit
    rw [List.map_take, List.enum_map_snd]

/-- C10 witness: The flagless fixture schedule is returned
whole (up to the cap) with no availability filtering. -/
theorem C10_witness :
    get_available_slots schedNoFlag 5 none none = schedNoFlag.rows.take 5 :=
  (C10_no_flag_columns schedNoFlag 5 none none (by decide) (by decide)).2

/-! ## C3 — booking -/

lemma rowGet_rowSet (row : Row) (c v : String) : rowGet (rowSet row c v) c = v := by
  induction row with
  | nil => simp [rowSet, rowGet, List.find?]
  | cons p rest ih =>
    rw [rowSet]
    by_cases h : (p.1 == c) = true
    · rw [if_pos h]
      simp [rowGet, List.find?]
    · rw [if_neg h]
      have hb : (p.1 == c) = false := by
        cases hpc : (p.1 == c) with
        | true => exact absurd hpc h
        | false => rfl
      simp only [rowGet, List.find?, hb] at ih ⊢
      exact ih

/-- C3 counterexample: On a one-row schedule, the first booking
flips the row's `Status` to `Booked`; booking the *same row index* a
second time nevertheless *succeeds* (the code checks only that the
index still exists, never the availability flag), refuting "booking the
same row identifier a second time fails because the row is no longer
Available". -/
theorem C3_counterexample :
    (book_slot_by_row_index schedOne 0).1.isSome = true
    ∧ rowGet ((book_slot_by_row_index schedOne 0).2.rows.getD 0 []) "Status" = "Booked"
    ∧ (book_slot_by_row_index (book_slot_by_row_index schedOne 0).2 0).1.isSome = true := by
  refine ⟨by decide, by decide, by decide⟩

/-- C3 amended: Booking by row identifier succeeds exactly when
the identifier exists in the table (regardless of the row's current
availability); on success it returns the updated row snapshot, persists
the table with that row's availability flipped to `Booked` (when a
`Status` column exists), and the booked row is never offered by a
subsequent slot listing; on failure the table is unchanged. -/
theorem C3_booking (t : Table) (i : Nat) :
    ((book_slot_by_row_index t i).1.isSome ↔ i < t.rows.length)
    ∧ ((book_slot_by_row_index t i).1 = none → (book_slot_by_row_index t i).2 = t)
    ∧ (∀ h : i < t.rows.length,
        (book_slot_by_row_index t i).1 = some (bookRow t.cols (t.rows.get ⟨i, h⟩))
        ∧ (book_slot_by_row_index t i).2.rows =
            t.rows.set i (bookRow t.cols (t.rows.get ⟨i, h⟩))
        ∧ (t.cols.contains "Status" = true →
            rowGet (bookRow t.cols (t.rows.get ⟨i, h⟩)) "Status" = "Booked"
            ∧ ∀ limit, bookRow t.cols (t.rows.get ⟨i, h⟩) ∉
                get_available_slots (book_slot_by_row_index t i).2 limit none none)) := by
  by_cases h : i < t.rows.length
  · have hrg0 : t.cols.contains "Status" = true →
        rowGet (bookRow t.cols (t.rows.get ⟨i, h⟩)) "Status" = "Booked" := by
      intro hS
      rw [bookRow, if_pos hS]
      exact rowGet_rowSet _ _ _
    have hbooked : t.cols.contains "Status" = true →
        ∀ limit, bookRow t.cols (t.rows.get ⟨i, h⟩) ∉
          get_available_slots (book_slot_by_row_index t i).2 limit none none := by
      intro hS limit hmem
      have hm := mem_gas_availMask _ limit none none _ hmem
      have hcols : (book_slot_by_row_index t i).2.cols = t.cols := by
        rw [book_slot_by_row_index, dif_pos h]
      rw [hcols] at hm
      rw [availMask, if_pos hS, hrg0 hS] at hm
      exact absurd hm (by decide)
    constructor
    · rw [book_slot_by_row_index, dif_pos h]
      simp [h]
    constructor
    · rw [book_slot_by_row_index, dif_pos h]
      intro hc
      cases hc
    · intro h2
      refine ⟨?_, ?_, ?_⟩
      · rw [book_slot_by_row_index, dif_pos h]
      · rw [book_slot_by_row_index, dif_pos h]
      · intro hS
        exact ⟨hrg0 hS, hbooked hS⟩
  · constructor
    · rw [book_slot_by_row_index, dif_neg h]
      simp [h]
    constructor
    · intro _
      rw [book_slot_by_row_index, dif_neg h]
    · intro h2
      exact absurd h2 h

/-- C3 witness: Booking row 0 of the one-row fixture succeeds and
flips its `Status` to `Booked`. -/
theorem C3_witness :
    (book_slot_by_row_index schedOne 0).1.isSome = true
    ∧ rowGet (bookRow schedOne.cols (schedOne.rows.get ⟨0, by decide⟩)) "Status" = "Booked" := by
  have h := C3_booking schedOne 0
  exact ⟨h.1.mpr (by decide), ((h.2.2 (by decide)).2.2 (by decide)).1⟩

/-! ## C7 — fallback positional parser -/

/-- C7 counterexample: For the three-field input `"a,b,c"` the
third field is present, yet the fallback parser assigns no
`InsuranceCarrier` (the source gates fields 3 and 4 on *four* or more
parts), refuting the unconditional "assigns … field 3 to Carrier". -/
theorem C7_counterexample :
    (splitChar ',' "a,b,c").length = 3
    ∧ basic_parse_patient_input "a,b,c" = [("Name", "a"), ("DOB", "b")]
    ∧ rowGetOpt (basic_parse_patient_input "a,b,c") "InsuranceCarrier" = none := by
  refine ⟨by decide, by decide, by decide⟩

/-- C7 amended: The fallback parser comma-splits and strips; it
assigns `Name`/`DOB` from fields 1–2 when at least 2 fields are present,
`InsuranceCarrier`/`MemberID` from fields 3–4 when at least 4 are
present, `GroupNumber` from field 5 when at least 5 are present, and
nothing otherwise; it never produces `Email` or `Phone`. -/
theorem C7_fallback_positional (input : String) (parts : List String)
    (hp : parts = (splitChar ',' input).map pyStrip) :
    rowGetOpt (basic_parse_patient_input input) "Email" = none
    ∧ rowGetOpt (basic_parse_patient_input input) "Phone" = none
    ∧ (2 ≤ parts.length →
        rowGetOpt (basic_parse_patient_input input) "Name" = some (parts.getD 0 "")
        ∧ rowGetOpt (basic_parse_patient_input input) "DOB" = some (parts.getD 1 ""))
    ∧ (4 ≤ parts.length →
        rowGetOpt (basic_parse_patient_input input) "InsuranceCarrier" = some (parts.getD 2 "")
        ∧ rowGetOpt (basic_parse_patient_input input) "MemberID" = some (parts.getD 3 ""))
    ∧ (5 ≤ parts.length →
        rowGetOpt (basic_parse_patient_input input) "GroupNumber" = some (parts.getD 4 ""))
    ∧ (parts.length ≤ 1 → basic_parse_patient_input input = [])
    ∧ (parts.length ≤ 3 →
        rowGetOpt (basic_parse_patient_input input) "InsuranceCarrier" = none)
    ∧ (parts.length ≤ 4 →
        rowGetOpt (basic_parse_patient_input input) "GroupNumber" = none) := by
  subst hp
  set P : List String := (splitChar ',' input).map pyStrip with hP
  by_cases h5 : 5 ≤ P.length
  · have h4 : 4 ≤ P.length := by omega
    have h2 : 2 ≤ P.length := by omega
    have e : basic_parse_patient_input input =
        [("Name", P.getD 0 ""), ("DOB", P.getD 1 ""),
         ("InsuranceCarrier", P.getD 2 ""), ("MemberID", P.getD 3 ""),
         ("GroupNumber", P.getD 4 "")] := by
      simp only [basic_parse_patient_input, ← hP]
      rw [if_pos h5, if_pos h4, if_pos h2]
      rfl
    refine ⟨?_, ?_, ?_, ?_, ?_, ?_, ?_, ?_⟩
    · rw [e]; simp [rowGetOpt, List.find?]
    · rw [e]; simp [rowGetOpt, List.find?]
    · intro _; rw [e]; constructor <;> simp [rowGetOpt, List.find?]
    · intro _; rw [e]; constructor <;> simp [rowGetOpt, List.find?]
    · intro _; rw [e]; simp [rowGetOpt, List.find?]
    · intro hc; omega
    · intro hc; omega
    · intro hc; omega
  · by_cases h4 : 4 ≤ P.length
    · have h2 : 2 ≤ P.length := by omega
      have e : basic_parse_patient_input input =
          [("Name", P.getD 0 ""), ("DOB", P.getD 1 ""),
           ("InsuranceCarrier", P.getD 2 ""), ("MemberID", P.getD 3 "")] := by
        simp only [basic_parse_patient_input, ← hP]
        rw [if_neg (by omega), if_pos h4, if_pos h2]
        rfl
      refine ⟨?_, ?_, ?_, ?_, ?_, ?_, ?_, ?_⟩
      · rw [e]; simp [rowGetOpt, List.find?]
      · rw [e]; simp [rowGetOpt, List.find?]
      · intro _; rw [e]; constructor <;> simp [rowGetOpt, List.find?]
      · intro _; rw [e]; constructor <;> simp [rowGetOpt, List.find?]
      · intro hc; omega
      · intro hc; omega
      · intro hc; omega
      · intro _; rw [e]; simp [rowGetOpt, List.find?]
    · by_cases h2 : 2 ≤ P.length
      · have e : basic_parse_patient_input input =
            [("Name", P.getD 0 ""), ("DOB", P.getD 1 "")] := by
          simp only [basic_parse_patient_input, ← hP]
          rw [if_neg (by omega), if_neg (by omega), if_pos h2]
        refine ⟨?_, ?_, ?_, ?_, ?_, ?_, ?_, ?_⟩
        · rw [e]; simp [rowGetOpt, List.find?]
        · rw [e]; simp [rowGetOpt, List.find?]
        · intro _; rw [e]; constructor <;> simp [rowGetOpt, List.find?]
        · intro hc; omega
        · intro hc; omega
        · intro hc; omega
        · intro _; rw [e]; simp [rowGetOpt, List.find?]
        · intro _; rw [e]; simp [rowGetOpt, List.find?]
      · have e : basic_parse_patient_input input = [] := by
          simp only [basic_parse_patient_input, ← hP]
          rw [if_neg (by omega), if_neg (by omega), if_neg (by omega)]
        refine ⟨?_, ?_, ?_, ?_, ?_, ?_, ?_, ?_⟩
        · rw [e]; simp [rowGetOpt, List.find?]
        · rw [e]; simp [rowGetOpt, List.find?]
        · intro hc; omega
        · intro hc; omega
        · intro hc; omega
        · intro _; exact e
        · intro _; rw [e]; simp [rowGetOpt, List.find?]
        · intro _; rw [e]; simp [rowGetOpt, List.find?]

/-- C7 witness: The seven-field scripted pipeline input recovers
exactly `Name`, `DOB`, `InsuranceCarrier`, `MemberID`, `GroupNumber`
and no contact fields. -/
theorem C7_witness :
    rowGetOpt (basic_parse_patient_input
      "Jane Doe, 1990-05-14, Cigna, 123456789, G12345, jane@example.com, +1-555-111-2222")
      "Email" = none
    ∧ rowGetOpt (basic_parse_patient_input
      "Jane Doe, 1990-05-14, Cigna, 123456789, G12345, jane@example.com, +1-555-111-2222")
      "Name" = some "Jane Doe"
    ∧ rowGetOpt (basic_parse_patient_input
      "Jane Doe, 1990-05-14, Cigna, 123456789, G12345, jane@example.com, +1-555-111-2222")
      "GroupNumber" = some "G12345" := by
  have h := C7_fallback_positional
    "Jane Doe, 1990-05-14, Cigna, 123456789, G12345, jane@example.com, +1-555-111-2222"
    _ rfl
  exact ⟨h.1, by simpa using (h.2.2.1 (by decide)).1, by simpa using h.2.2.2.2.1 (by decide)⟩

/-! ## C8 — notification sinks -/

/-- C8 counterexample: The email sink's log line for recipient
`"a@b"` and message `"hi"` is `"a@b: hi"`, which does not even contain
the `" -> "` separator, refuting "each notification sink's send
operation appends … \"<timestamp> -> <recipient>: <message>\"" (the
source writes `f"{patient_email}: {message}"`, with no timestamp). -/
theorem C8_counterexample :
    (send_email [] "a@b" "hi").2 = ["a@b: hi"]
    ∧ ¬ (" -> ".data <:+: (emailLogLine "a@b" "hi").data) := by
  refine ⟨by decide, by decide⟩

/-- C8 amended: Each sink appends exactly one line to its own log
and returns a formatted confirmation: the SMS sink's line is
`"<timestamp> -> <recipient>: <message>"`, the email sink's line is
`"<recipient>: <message>"` (no timestamp), and the intake-form sender
reports found or missing depending on the fixed document path's
existence. -/
theorem C8_notification_sinks (now phone email msg path : String) (log : List String) :
    (send_sms now log phone msg).2 = log ++ [now ++ " -> " ++ phone ++ ": " ++ msg]
    ∧ (send_sms now log phone msg).2.length = log.length + 1
    ∧ (send_sms now log phone msg).1 = "📱 SMS sent to " ++ phone ++ ": " ++ msg
    ∧ (send_email log email msg).2 = log ++ [email ++ ": " ++ msg]
    ∧ (send_email log email msg).2.length = log.length + 1
    ∧ (send_email log email msg).1 = "📧 Email sent to " ++ email ++ ": " ++ msg
    ∧ send_intake_form true path email =
        "📧 Sent intake form to " ++ email ++ " (" ++ path ++ ")"
    ∧ send_intake_form false path email = "⚠️ Intake form not found!" := by
  refine ⟨rfl, by simp [send_sms], rfl, rfl, by simp [send_email], rfl, rfl, rfl⟩

/-! ## C6 — pipeline short-circuit to the error stage -/

lemma communication_agent_errors (fe : Bool) (path now : String)
    (s : AgentState) (w : PipeWorld) :
    (communication_agent fe path now s w).1.errors = s.errors := rfl

lemma error_handler_spec (s : AgentState) :
    (error_handler s).current_step = "error_handled"
    ∧ (error_handler s).errors = s.errors
    ∧ (error_handler s).messages =
        s.messages ++ ["❌ Errors encountered: " ++ String.intercalate "; " s.errors] :=
  ⟨rfl, rfl, rfl⟩

/-- C6: In every (modelled) pipeline run that ends with a non-empty
error list, the trace is a prefix of the normal stage order capped by
the terminal `error_handler`; the communication stage never ran; the
final step tag is `error_handled`; and the last message concatenates
all accumulated errors. -/
theorem C6_pipeline_short_circuit (roster : Table) (fe : Bool) (path now : String)
    (w : PipeWorld) (input : String) (r : PipeResult)
    (hr : r = runWorkflow roster fe path now w input)
    (he : r.state.errors ≠ []) :
    (r.trace = ["patient_agent", "error_handler"]
      ∨ r.trace = ["patient_agent", "scheduler_agent", "error_handler"]
      ∨ r.trace = ["patient_agent", "scheduler_agent", "confirmation_agent", "error_handler"])
    ∧ r.trace.getLast? = some "error_handler"
    ∧ "communication_agent" ∉ r.trace
    ∧ r.state.current_step = "error_handled"
    ∧ r.state.messages.getLast? =
        some ("❌ Errors encountered: " ++ String.intercalate "; " r.state.errors) := by
  subst hr
  revert he
  simp only [runWorkflow]
  generalize patient_agent roster (initialAgentState input) = s1
  by_cases h1 : s1.errors.isEmpty
  · rw [route_after_patient, if_pos h1]
    simp only [beq_self_eq_true, if_true]
    generalize scheduler_agent w.sched s1 = s2
    by_cases h2 : s2.errors.isEmpty
    · rw [route_after_scheduler, if_pos h2]
      simp only [beq_self_eq_true, if_true]
      generalize confirmation_agent w.sched s2 = s3t
      by_cases h3 : s3t.1.errors.isEmpty
      · rw [route_after_confirmation, if_pos h3]
        simp only [beq_self_eq_true, if_true]
        intro he2
        exfalso
        apply he2
        rw [communication_agent_errors]
        exact List.isEmpty_iff.mp h3
      · have h3' : s3t.1.errors.isEmpty = false := by
          simpa using h3
        rw [route_after_confirmation, if_neg (by simp [h3'])]
        simp only [show (("error" : String) == "communicate") = false from by decide,
          Bool.false_eq_true, if_false]
        intro _
        refine ⟨by simp, rfl, by decide, rfl, ?_⟩
        exact List.getLast?_concat _
    · have h2' : s2.errors.isEmpty = false := by
        simpa using h2
      rw [route_after_scheduler, if_neg (by simp [h2'])]
      simp only [show (("error" : String) == "confirm") = false from by decide,
        Bool.false_eq_true, if_false]
      intro _
      refine ⟨by simp, rfl, by decide, rfl, ?_⟩
      exact List.getLast?_concat _
  · have h1' : s1.errors.isEmpty = false := by
      simpa using h1
    rw [route_after_patient, if_neg (by simp [h1'])]
    simp only [show (("error" : String) == "schedule") = false from by decide,
      Bool.false_eq_true, if_false]
    intro _
    refine ⟨by simp, rfl, by decide, rfl, ?_⟩
    exact List.getLast?_concat _

/-- C6 witness: A run against the empty schedule: the scheduler
stage records "No available slots found" and the run ends in the error
stage with the concatenated report. -/
theorem C6_witness :
    (runWorkflow rosterEx false "p" "t" pipeWorldEmpty "x").state.current_step = "error_handled"
    ∧ (runWorkflow rosterEx false "p" "t" pipeWorldEmpty "x").state.messages.getLast? =
      some ("❌ Errors encountered: " ++ String.intercalate "; "
        (runWorkflow rosterEx false "p" "t" pipeWorldEmpty "x").state.errors) := by
  have h := C6_pipeline_short_circuit rosterEx false "p" "t" pipeWorldEmpty "x" _ rfl
    (by decide)
  exact ⟨h.2.2.2.1, h.2.2.2.2⟩

/-! ## C4 — malformed insurance input -/

/-- C4: At the insurance step, any input whose comma-split does not
yield exactly three fields leaves the step unchanged, appends exactly
one assistant error message after the echoed user message, and mutates
neither the patient record nor any other world state. -/
theorem C4_insurance_malformed (roster : Table) (fe : Bool) (path now : String)
    (w : ChatWorld) (prompt : String)
    (hstep : w.session.step = Step.insurance)
    (hbad : (splitChar ',' prompt).length ≠ 3) :
    (processInput roster fe path now w prompt).session.step = Step.insurance
    ∧ (processInput roster fe path now w prompt).session.patient = w.session.patient
    ∧ (processInput roster fe path now w prompt).session.messages =
        w.session.messages ++
          [("user", prompt),
           ("assistant", "❌ Please enter format: Carrier, MemberID, GroupNumber")]
    ∧ (processInput roster fe path now w prompt).session.slots_view = w.session.slots_view
    ∧ (processInput roster fe path now w prompt).sched = w.sched
    ∧ (processInput roster fe path now w prompt).exports = w.exports
    ∧ (processInput roster fe path now w prompt).emailLog = w.emailLog
    ∧ (processInput roster fe path now w prompt).smsLog = w.smsLog
    ∧ (processInput roster fe path now w prompt).reminderLog = w.reminderLog := by
  have e : processInput roster fe path now w prompt =
      { w with session :=
          { w.session with
              messages := w.session.messages ++
                [("user", prompt),
                 ("assistant", "❌ Please enter format: Carrier, MemberID, GroupNumber")] } } := by
    simp [processInput, hstep, handleInsurance, hbad, List.append_assoc]
  rw [e]
  exact ⟨hstep, rfl, rfl, rfl, rfl, rfl, rfl, rfl, rfl⟩

/-- C4 witness: The two-field input `"Cigna, 123"` at the
insurance step of a concrete session. -/
theorem C4_witness :
    (processInput rosterEx true "p" "t" worldAtInsurance "Cigna, 123").session.step =
      Step.insurance
    ∧ (processInput rosterEx true "p" "t" worldAtInsurance "Cigna, 123").session.patient =
        worldAtInsurance.session.patient := by
  have h := C4_insurance_malformed rosterEx true "p" "t" worldAtInsurance "Cigna, 123"
    (by decide) (by decide)
  exact ⟨h.1, h.2.1⟩

/-! ## C5 — forward-only step transitions -/

lemma handleLookup_step (roster : Table) (s : Session) (prompt : String) :
    (handleLookup roster s prompt).step = Step.preferences
    ∨ (handleLookup roster s prompt).step = s.step := by
  simp only [handleLookup]
  split
  · split
    · right; rfl
    · left; rfl
  · right; rfl

lemma handlePreferences_step (s : Session) (prompt : String) :
    (handlePreferences s prompt).step = Step.insurance
    ∨ (handlePreferences s prompt).step = s.step := by
  simp only [handlePreferences]
  split
  · left; rfl
  · split
    · left; rfl
    · right; rfl

lemma handleInsurance_step (s : Session) (prompt : String) :
    (handleInsurance s prompt).step = Step.contact
    ∨ (handleInsurance s prompt).step = s.step := by
  simp only [handleInsurance]
  split
  · left; rfl
  · right; rfl

lemma handleContact_step (s : Session) (prompt : String) :
    (handleContact s prompt).step = Step.scheduling
    ∨ (handleContact s prompt).step = s.step := by
  simp only [handleContact]
  split
  · left; rfl
  · right; rfl

lemma handleScheduling_step (w : ChatWorld) (s : Session) :
    (handleScheduling w s).session.step = Step.done
    ∨ (handleScheduling w s).session.step = Step.confirmation := by
  simp only [handleScheduling]
  split
  · left; rfl
  · right; rfl

lemma handleConfirmation_step (fe : Bool) (path now : String) (w : ChatWorld)
    (s : Session) (prompt : String) :
    (handleConfirmation fe path now w s prompt).session.step = Step.reminders_action
    ∨ (handleConfirmation fe path now w s prompt).session.step = s.step := by
  simp only [handleConfirmation]
  split
  · right; rfl
  · split
    · right; rfl
    · split
      · right; rfl
      · split
        · right; rfl
        · split
          · left; rfl
          · right; rfl

lemma handleReminders_step (now : String) (w : ChatWorld) (s : Session) (prompt : String) :
    (handleReminders now w s prompt).session.step = Step.done := rfl

lemma handleLookup_step_ge (roster : Table) (s : Session) (prompt : String) (k : Nat)
    (hk : k ≤ 2) (hs : k ≤ stepIdx s.step) :
    k ≤ stepIdx (handleLookup roster s prompt).step := by
  rcases handleLookup_step roster s prompt with h1 | h1 <;> rw [h1]
  · exact hk
  · exact hs

lemma handlePreferences_step_ge (s : Session) (prompt : String) (k : Nat)
    (hk : k ≤ 3) (hs : k ≤ stepIdx s.step) :
    k ≤ stepIdx (handlePreferences s prompt).step := by
  rcases handlePreferences_step s prompt with h1 | h1 <;> rw [h1]
  · exact hk
  · exact hs

lemma handleInsurance_step_ge (s : Session) (prompt : String) (k : Nat)
    (hk : k ≤ 4) (hs : k ≤ stepIdx s.step) :
    k ≤ stepIdx (handleInsurance s prompt).step := by
  rcases handleInsurance_step s prompt with h1 | h1 <;> rw [h1]
  · exact hk
  · exact hs

lemma handleContact_step_ge (s : Session) (prompt : String) (k : Nat)
    (hk : k ≤ 5) (hs : k ≤ stepIdx s.step) :
    k ≤ stepIdx (handleContact s prompt).step := by
  rcases handleContact_step s prompt with h1 | h1 <;> rw [h1]
  · exact hk
  · exact hs

lemma handleScheduling_step_ge (w : ChatWorld) (s : Session) (k : Nat)
    (hk : k ≤ 6) :
    k ≤ stepIdx (handleScheduling w s).session.step := by
  rcases handleScheduling_step w s with h1 | h1 <;> rw [h1]
  · exact hk.trans (by decide)
  · exact hk

lemma handleConfirmation_step_ge (fe : Bool) (path now : String) (w : ChatWorld)
    (s : Session) (prompt : String) (k : Nat)
    (hk : k ≤ 7) (hs : k ≤ stepIdx s.step) :
    k ≤ stepIdx (handleConfirmation fe path now w s prompt).session.step := by
  rcases handleConfirmation_step fe path now w s prompt with h1 | h1 <;> rw [h1]
  · exact hk
  · exact hs

lemma processInput_step_mono (roster : Table) (fe : Bool) (path now : String)
    (w : ChatWorld) (prompt : String) :
    stepIdx w.session.step ≤
      stepIdx (processInput roster fe path now w prompt).session.step := by
  simp only [processInput]
  cases h : w.session.step with
  | greeting =>
    simp only [h]
    exact Nat.zero_le _
  | lookup =>
    simp [h]
    apply handleLookup_step_ge
    · decide
    · exact le_rfl
  | preferences =>
    simp [h]
    apply handlePreferences_step_ge
    · decide
    · exact le_rfl
  | insurance =>
    simp [h]
    apply handleInsurance_step_ge
    · decide
    · exact le_rfl
  | contact =>
    simp [h]
    apply handleContact_step_ge
    · decide
    · exact le_rfl
  | scheduling =>
    simp [h]
    apply handleScheduling_step_ge
    decide
  | confirmation =>
    simp [h]
    apply handleConfirmation_step_ge
    · decide
    · exact le_rfl
  | reminders_action =>
    simp [h, handleReminders_step]
    try decide
  | done =>
    simp [h]
    try decide

/-- C5: Over any sequence of chat inputs, the session's step tag
only moves forward along
greeting → lookup → preferences → insurance → contact → scheduling →
confirmation → reminders_action → done; no handler ever moves it to an
earlier step. -/
theorem C5_step_monotone (roster : Table) (fe : Bool) (path now : String)
    (w : ChatWorld) (prompts : List String) :
    stepIdx w.session.step ≤
      stepIdx ((prompts.foldl (fun acc p => processInput roster fe path now acc p) w).session.step) := by
  induction prompts generalizing w with
  | nil => exact le_rfl
  | cons p ps ih =>
    exact (processInput_step_mono roster fe path now w p).trans (ih _)

end SchedAgent
